import Mathlib

/-!
# Orbit Engine observer client: formal model

A shallow embedding of the observer-client code of the Orbit Engine
repository (the React client under `client/src`), together with theorems
checking the natural-language specification's interface claims against it.

The embedding models the JavaScript values the client builds and consumes:
JSON-like data as `JVal`, JS numbers as `JSNum` (a rational or NaN; the
claims under study depend only on null/NaN distinctions and exact field
names, never on float rounding), and the handlers of `OrbitEngine.jsx`,
`SolarSystem.jsx`, `TrajectoryPlanner.jsx` (the `PorkchopPlot` and planner
components), `ControlPanel.jsx` (`TimeControls`, `SimulationInfo`) and the
`useWebSocket` hook as pure functions from their inputs to the messages,
requests, state updates and timer registrations they produce.
-/

/-- A JavaScript number as the client code observes it: either NaN or a
finite value, carried as a rational (the code under study never relies on
float rounding). -/
inductive JSNum where
  | nan : JSNum
  | val : ℚ → JSNum
  deriving DecidableEq

/-- A JSON-like JavaScript value: `undefined`, `null`, booleans, numbers,
strings, arrays and objects (an object is its field list, in source
order). -/
inductive JVal where
  | undefinedVal : JVal
  | null : JVal
  | bool : Bool → JVal
  | num : JSNum → JVal
  | str : String → JVal
  | arr : List JVal → JVal
  | obj : List (String × JVal) → JVal

/-- Property access `o.k` on an object's field list: the first binding of
the key; `none` stands for JS `undefined` (absent field). -/
def jget (fields : List (String × JVal)) (k : String) : Option JVal :=
  match fields with
  | [] => none
  | (k', v) :: rest => if k' = k then some v else jget rest k

/-- The keys of an object literal, in source order. -/
def jkeys (fields : List (String × JVal)) : List String :=
  fields.map Prod.fst

/-- JS truthiness of a value: `undefined`, `null`, `false`, `0`, `NaN` and
the empty string are falsy; every array and object is truthy. -/
def jsTruthy : JVal → Bool
  | .undefinedVal => false
  | .null => false
  | .bool b => b
  | .num .nan => false
  | .num (.val q) => q != 0
  | .str s => s != ""
  | .arr _ => true
  | .obj _ => true

/-- Array indexing `v[n]`: `none` stands for JS `undefined` (out of range
or not an array). -/
def jvIndex (v : JVal) (n : ℕ) : Option JVal :=
  match v with
  | .arr xs => xs.get? n
  | _ => none

/-!
## ControlPanel.jsx — `TimeControls`

Embeds the `speedOptions` literal and the path from the speed `<select>`
to the `onSpeedChange` callback. The rendered `<select>` offers exactly
the options of `speedOptions`; choosing one fires
`onSpeedChange(parseFloat(e.target.value))`, and `parseFloat` of the
decimal rendering of an option's integral value returns that value.
-/

/-- One entry of the `speedOptions` array of `TimeControls`. -/
structure SpeedOption where
  value : ℚ
  label : String
  deriving DecidableEq

/-- The `speedOptions` literal of `TimeControls` (ControlPanel.jsx). -/
def speedOptions : List SpeedOption :=
  [⟨1, "1x"⟩, ⟨10, "10x"⟩, ⟨100, "100x"⟩, ⟨1000, "1,000x"⟩,
   ⟨10000, "10,000x"⟩, ⟨100000, "100,000x"⟩, ⟨1000000, "1M x"⟩]

/-- The numeric speed `TimeControls` hands to `onSpeedChange` when the
option at index `k` of its `<select>` is chosen (`none` if there is no
such option, hence no event). -/
def timeControlsSelectSpeed (k : ℕ) : Option ℚ :=
  (speedOptions.get? k).map SpeedOption.value

/-!
## ControlPanel.jsx — `SimulationInfo` and the JS `Date` model

`formatSimTime` runs
`const date = new Date(Date.UTC(2024, 0, 1)); date.setSeconds(date.getSeconds() + seconds); return date.toISOString().replace('T', ' ').slice(0, -5);`.

A JS `Date` is a count of milliseconds since the Unix epoch, modelled as
an integer. `Date.UTC(year, monthIndex, day)` is computed through the
proleptic-Gregorian civil-date arithmetic the engine itself uses
(`daysFromCivil`, the standard era/day-of-era decomposition), so the
epoch constant is derived from the calendar, not asserted.
`getSeconds`/`setSeconds` read and replace the seconds-of-minute field
(the runtime evaluates them in local time; the model takes a UTC locale,
i.e. offset zero, under which both are the UTC field operations). All
divisions below are floor divisions of nonnegative quantities, matching
the JS specification; Lean's integer `/` and `%` are Euclidean, which
agrees with floor for the positive divisors used here. -/

/-- Days from the Unix epoch (1970-01-01) of the civil date `(y, m, d)`
with month `m` in 1..12 (proleptic Gregorian). -/
def daysFromCivil (y m d : ℤ) : ℤ :=
  let y' := if m ≤ 2 then y - 1 else y
  let era := y' / 400
  let yoe := y' - era * 400
  let mp := (m + 9) % 12
  let doy := (153 * mp + 2) / 5 + d - 1
  let doe := yoe * 365 + yoe / 4 - yoe / 100 + doy
  era * 146097 + doe - 719468

/-- The inverse civil decomposition: the date `(y, m, d)` of the day `z`
counted from the Unix epoch. -/
def civilFromDays (z : ℤ) : ℤ × ℤ × ℤ :=
  let z' := z + 719468
  let era := z' / 146097
  let doe := z' - era * 146097
  let yoe := (doe - doe / 1460 + doe / 36524 - doe / 146096) / 365
  let y := yoe + era * 400
  let doy := doe - (365 * yoe + yoe / 4 - yoe / 100)
  let mp := (5 * doy + 2) / 153
  let d := doy - (153 * mp + 2) / 5 + 1
  let m := if mp < 10 then mp + 3 else mp - 9
  (if m ≤ 2 then y + 1 else y, m, d)

/-- JS `Date.UTC(year, monthIndex, day)` in milliseconds since the Unix
epoch (`monthIndex` is 0-based, as in the source's `Date.UTC(2024, 0, 1)`). -/
def dateUTC (year monthIndex day : ℤ) : ℤ :=
  daysFromCivil year (monthIndex + 1) day * 86400000

/-- JS `date.getSeconds()`: the seconds-of-minute field of the instant. -/
def dateGetSeconds (ms : ℤ) : ℤ :=
  ms / 1000 % 60

/-- JS `date.setSeconds(s)`: replace the seconds-of-minute field by `s`
(with rollover), keeping the millisecond field. -/
def dateSetSeconds (ms s : ℤ) : ℤ :=
  ms - 1000 * dateGetSeconds ms + 1000 * s

/-- The instant held by the `Date` that `formatSimTime` renders: the
2024-01-01 epoch shifted by `seconds` via `setSeconds(getSeconds() + seconds)`. -/
def formatSimTime_ms (seconds : ℤ) : ℤ :=
  let epoch := dateUTC 2024 0 1
  dateSetSeconds epoch (dateGetSeconds epoch + seconds)

/-- Two-digit zero padding, as `toISOString` renders date and time fields. -/
def pad2 (n : ℤ) : String :=
  if n < 10 then "0" ++ toString n else toString n

/-- The date part `YYYY-MM-DD` of `toISOString` for a day count `days`
(years in 1000..9999 print as their four digits). -/
def isoDatePart (days : ℤ) : String :=
  let c := civilFromDays days
  toString c.1 ++ "-" ++ pad2 c.2.1 ++ "-" ++ pad2 c.2.2

/-- The time part `HH:MM:SS` of `toISOString` for a millisecond-of-day
count. -/
def isoTimePart (msOfDay : ℤ) : String :=
  pad2 (msOfDay / 3600000) ++ ":" ++ pad2 (msOfDay / 60000 % 60) ++ ":" ++ pad2 (msOfDay / 1000 % 60)

/-- The string `SimulationInfo.formatSimTime` displays: `toISOString`
yields the 24-character form `YYYY-MM-DDTHH:MM:SS.mmmZ`; the code then
replaces the `T` by a space (`.replace`) and drops the trailing `.mmmZ`
(`.slice(0, -5)`), so the composite is the date part, a space, and the
time part. -/
def formatSimTime (seconds : ℤ) : String :=
  let ms := formatSimTime_ms seconds
  isoDatePart (ms / 86400000) ++ " " ++ isoTimePart (ms % 86400000)

/-!
## OrbitEngine.jsx — WebSocket client and control handlers

`wsRef.current` is either absent or a socket with a `readyState`; it is
modelled as `Option ℕ` carrying the ready state. `sendCommand` writes
`JSON.stringify(command)` to the socket only when the socket exists and
`readyState === WebSocket.OPEN`; otherwise its body does nothing: it
queues nothing and raises nothing. `SendOutcome` records the complete
effect of one call (frames written, commands queued, error raised), with
serialization left as the identity on the modelled value.
-/

/-- The `WebSocket.OPEN` ready-state constant. -/
def wsOPEN : ℕ := 1

/-- The complete effect of one call to a send helper: the frames written
to the socket, the commands queued for later, and the error raised. -/
structure SendOutcome where
  sent : List JVal
  queued : List JVal
  error : Option String

/-- The `sendCommand` helper of `OrbitEngine.jsx`. -/
def sendCommand (wsCurrent : Option ℕ) (command : JVal) : SendOutcome :=
  match wsCurrent with
  | some readyState => if readyState = wsOPEN then ⟨[command], [], none⟩ else ⟨[], [], none⟩
  | none => ⟨[], [], none⟩

/-- The `sendMessage` helper of the `useWebSocket` hook (same guard as
`sendCommand`, in `hooks/useWebSocket.js`). -/
def sendMessage (wsCurrent : Option ℕ) (message : JVal) : SendOutcome :=
  match wsCurrent with
  | some readyState => if readyState = wsOPEN then ⟨[message], [], none⟩ else ⟨[], [], none⟩
  | none => ⟨[], [], none⟩

/-- A REST call issued with `fetch`: the URL and the JSON body. -/
structure ApiRequest where
  url : String
  body : List (String × JVal)

/-- The messages a control handler of `OrbitEngine.jsx` emits: the
WebSocket command handed to `sendCommand`, and the redundant REST call. -/
structure ControlEffects where
  wsCommand : List (String × JVal)
  restCall : ApiRequest

/-- The `handlePlayPause` handler: the action is `pause` when the
simulation is playing, else `play`; it is sent over the socket as
`\x7b type: 'control', action \x7d` and redundantly POSTed. -/
def handlePlayPause (isPlaying : Bool) : ControlEffects :=
  let action := if isPlaying then "pause" else "play"
  ⟨[("type", .str "control"), ("action", .str action)],
   ⟨"http://localhost:8000/api/control/time", [("action", .str action)]⟩⟩

/-- The `handleSpeedChange` handler: sends
`\x7b type: 'control', action: 'set_speed', speed \x7d` and the redundant
REST call. -/
def handleSpeedChange (speed : JSNum) : ControlEffects :=
  ⟨[("type", .str "control"), ("action", .str "set_speed"), ("speed", .num speed)],
   ⟨"http://localhost:8000/api/control/time",
    [("action", .str "set_speed"), ("speed", .num speed)]⟩⟩

/-- The `handleBodyClick` handler: sends
`\x7b type: 'focus', body_name \x7d` and POSTs the same body name to the
focus endpoint. -/
def handleBodyClick (bodyName : String) : ControlEffects :=
  ⟨[("type", .str "focus"), ("body_name", .str bodyName)],
   ⟨"http://localhost:8000/api/focus", [("body_name", .str bodyName)]⟩⟩

/-- A state update performed by the `ws.onmessage` handler of
`OrbitEngine.jsx`. -/
inductive ClientUpdate where
  | setSimulationState : Option JVal → ClientUpdate
  | setBodyInfo : Option JVal → ClientUpdate
  | logStatus : ClientUpdate

/-- The `ws.onmessage` dispatch of `OrbitEngine.jsx`: a `state_update`
message stores `message.data` as the new simulation state, `body_info`
stores it as the body info, `status` only logs; anything else does
nothing. -/
def onEngineMessage (message : List (String × JVal)) : Option ClientUpdate :=
  match jget message "type" with
  | some (.str "state_update") => some (.setSimulationState (jget message "data"))
  | some (.str "body_info") => some (.setBodyInfo (jget message "data"))
  | some (.str "status") => some .logStatus
  | _ => none

/-- The initial `simulationState` literal of `OrbitEngine.jsx`
(`real_timestamp` is `new Date().toISOString()` at mount, passed in). -/
def initialSimulationState (nowIso : String) : List (String × JVal) :=
  [("timestamp", .num (.val 0)),
   ("real_timestamp", .str nowIso),
   ("bodies", .obj []),
   ("missions", .arr []),
   ("time_scale", .num (.val 1)),
   ("is_playing", .bool false)]

/-- The props `OrbitEngine`'s render draws from `simulationState`: which
field feeds each child component. -/
structure EngineViewProps where
  solarSystemBodies : Option JVal
  solarSystemMissions : Option JVal
  solarSystemTimeScale : Option JVal
  simInfoTimestamp : Option JVal
  simInfoRealTime : Option JVal
  timeControlsIsPlaying : Option JVal
  timeControlsTimeScale : Option JVal
  missionPanelMissions : Option JVal

/-- The render of `OrbitEngine.jsx`: `SolarSystem` receives
`simulationState.bodies`, `.missions` and `.time_scale`; `SimulationInfo`
receives `.timestamp` and `.real_timestamp`; `TimeControls` receives
`.is_playing` and `.time_scale`; `MissionPanel` receives `.missions`. -/
def engineView (simulationState : List (String × JVal)) : EngineViewProps :=
  { solarSystemBodies := jget simulationState "bodies"
    solarSystemMissions := jget simulationState "missions"
    solarSystemTimeScale := jget simulationState "time_scale"
    simInfoTimestamp := jget simulationState "timestamp"
    simInfoRealTime := jget simulationState "real_timestamp"
    timeControlsIsPlaying := jget simulationState "is_playing"
    timeControlsTimeScale := jget simulationState "time_scale"
    missionPanelMissions := jget simulationState "missions" }

/-- The connection-relevant client state of `OrbitEngine.jsx`: the
`isConnected` flag and the pending timers registered with `setTimeout`
(delay in milliseconds paired with the callback's name). -/
structure EngineConnState where
  isConnected : Bool
  pendingTimers : List (ℕ × String)

/-- A lifecycle event delivered to the engine socket's handlers. -/
inductive WsEvent where
  | onOpen : WsEvent
  | onClose : WsEvent
  | onError : WsEvent

/-- The socket lifecycle handlers installed by `connectWebSocket` in
`OrbitEngine.jsx`: `onopen` sets `isConnected` to true; `onclose` sets it
to false and registers `setTimeout(connectWebSocket, 3000)`; `onerror`
only logs. -/
def engineSocketEvent (s : EngineConnState) (e : WsEvent) : EngineConnState :=
  match e with
  | .onOpen => ⟨true, s.pendingTimers⟩
  | .onClose => ⟨false, s.pendingTimers ++ [(3000, "connectWebSocket")]⟩
  | .onError => s

/-!
## SolarSystem.jsx — mission rendering

The missions loop renders a `Spacecraft` for a mission exactly when
`mission.status === 'active' && mission.current_position`, at the
position read from `current_position[0..2]`.
-/

/-- The spacecraft rendering decision of `SolarSystem.jsx` for one
mission entry: `some` of the three position coordinates when the guard
`mission.status === 'active' && mission.current_position` passes, `none`
otherwise. -/
def renderMissionSpacecraft (mission : List (String × JVal)) :
    Option (Option JVal × Option JVal × Option JVal) :=
  match jget mission "status", jget mission "current_position" with
  | some (.str "active"), some cp =>
      if jsTruthy cp then some (jvIndex cp 0, jvIndex cp 1, jvIndex cp 2) else none
  | _, _ => none

/-!
## TrajectoryPlanner.jsx — `PorkchopPlot` cell selection

`handleCellClick(i, j)` reads `departure_dates[i]`, `arrival_dates[j]`,
`c3[i][j]`, `delta_v[i][j]`, `time_of_flight[i][j]`; if any of the three
values `== null` it returns before touching the selection, else it sets
the selected point to `(i, j)` and invokes `onSelectPoint` with the five
values. A grid entry is `Option JSNum`: `none` is JS `null` (or an
`undefined` out-of-range read, which the `== null` guard treats alike),
and `some JSNum.nan` is a present NaN entry.
-/

/-- The porkchop response object the plot receives (spec
`PorkchopResponse` shape, as the component reads it). -/
structure PorkchopData where
  departure_dates : List String
  arrival_dates : List String
  c3 : List (List (Option JSNum))
  delta_v : List (List (Option JSNum))
  time_of_flight : List (List (Option JSNum))

/-- The read `rows[i][j]` of a grid entry. -/
def cellVal (rows : List (List (Option JSNum))) (i j : ℕ) : Option JSNum :=
  (((rows.get? i).getD []).get? j).getD none

/-- The payload `handleCellClick` hands to `onSelectPoint` (field names
as in the source object literal). -/
structure SelectedPoint where
  departure_date : Option String
  arrival_date : Option String
  c3 : JSNum
  delta_v : JSNum
  time_of_flight : JSNum

/-- The `handleCellClick` handler of `PorkchopPlot`: returns the new
`selectedPoint` state together with the `onSelectPoint` invocation, if
any. The early `return` on `c3 == null || deltaV == null || tof == null`
is the fall-through match arm. -/
def handleCellClick (data : PorkchopData) (selectedPoint : Option (ℕ × ℕ)) (i j : ℕ) :
    Option (ℕ × ℕ) × Option SelectedPoint :=
  match cellVal data.c3 i j, cellVal data.delta_v i j, cellVal data.time_of_flight i j with
  | some c3v, some dvv, some tofv =>
      (some (i, j),
       some ⟨data.departure_dates.get? i, data.arrival_dates.get? j, c3v, dvv, tofv⟩)
  | _, _, _ => (selectedPoint, none)

/-!
## TrajectoryPlanner.jsx — planner REST requests
-/

/-- Lift an optional string into a field value (`undefined` when absent,
as JS passes a missing array read along). -/
def jvalOfOptStr : Option String → JVal
  | some s => .str s
  | none => .undefinedVal

/-- The porkchop request `calculatePorkchop` POSTs: the four date-range
inputs (date-picker values of the form `YYYY-MM-DD`) each extended with
`T00:00:00`. -/
def calculatePorkchopRequest (departure arrival departureStart departureEnd arrivalStart arrivalEnd : String) : ApiRequest :=
  ⟨"http://localhost:8000/api/trajectory/porkchop",
   [("departure", .str departure),
    ("arrival", .str arrival),
    ("departure_start", .str (departureStart ++ "T00:00:00")),
    ("departure_end", .str (departureEnd ++ "T00:00:00")),
    ("arrival_start", .str (arrivalStart ++ "T00:00:00")),
    ("arrival_end", .str (arrivalEnd ++ "T00:00:00"))]⟩

/-- The single-transfer request `calculateTransfer` POSTs for a selected
porkchop point. -/
def calculateTransferRequest (departure arrival : String) (point : SelectedPoint) : ApiRequest :=
  ⟨"http://localhost:8000/api/trajectory/calculate",
   [("departure", .str departure),
    ("arrival", .str arrival),
    ("departure_date", jvalOfOptStr point.departure_date),
    ("arrival_date", jvalOfOptStr point.arrival_date)]⟩

/-- The launch request `handleLaunchMission` POSTs: the transfer object
wrapped in a `transfer_data` field. -/
def launchMissionRequest (transfer : JVal) : ApiRequest :=
  ⟨"http://localhost:8000/api/mission/launch", [("transfer_data", transfer)]⟩

/-!
## ISO-8601 shapes at the boundary
-/

/-- A calendar-date string `YYYY-MM-DD` (the shape a date picker yields). -/
def isIsoDate (s : String) : Bool :=
  match s.data with
  | [y1, y2, y3, y4, '-', m1, m2, '-', d1, d2] =>
      y1.isDigit && y2.isDigit && y3.isDigit && y4.isDigit &&
      m1.isDigit && m2.isDigit && d1.isDigit && d2.isDigit
  | _ => false

/-- An ISO-8601 date-time string `YYYY-MM-DDTHH:MM:SS`. -/
def isIsoDateTime (s : String) : Bool :=
  match s.data with
  | [y1, y2, y3, y4, '-', m1, m2, '-', d1, d2, 'T', h1, h2, ':', n1, n2, ':', s1, s2] =>
      y1.isDigit && y2.isDigit && y3.isDigit && y4.isDigit &&
      m1.isDigit && m2.isDigit && d1.isDigit && d2.isDigit &&
      h1.isDigit && h2.isDigit && n1.isDigit && n2.isDigit &&
      s1.isDigit && s2.isDigit
  | _ => false

/-!
## Concrete data used by counterexamples and witnesses
-/

/-- A mission entry named as the specification writes it: active, with
its position under `current_position_au`. -/
def specNamedMission : List (String × JVal) :=
  [("id", .str "mission_1"), ("departure", .str "earth"), ("arrival", .str "mars"),
   ("status", .str "active"), ("progress", .num (.val (1/2))), ("delta_v", .num (.val 6)),
   ("current_position_au", .arr [.num (.val 1), .num (.val 0), .num (.val 0)])]

/-- A state snapshot named as the specification writes it: `sim_time`,
`real_time`, `time_scale`, `is_playing`. -/
def specNamedSnapshot : List (String × JVal) :=
  [("sim_time", .num (.val 42)), ("real_time", .str "2024-01-01T00:00:42Z"),
   ("time_scale", .num (.val 1)), ("is_playing", .bool true),
   ("bodies", .obj []), ("missions", .arr [.obj specNamedMission])]

/-- A mission entry named as the client reads it: active, with its
position under `current_position`. -/
def clientNamedMission : List (String × JVal) :=
  [("id", .str "mission_1"), ("departure", .str "earth"), ("arrival", .str "mars"),
   ("status", .str "active"), ("progress", .num (.val (1/2))), ("delta_v", .num (.val 6)),
   ("current_position", .arr [.num (.val 1), .num (.val 0), .num (.val 0)])]

/-- A one-cell porkchop grid whose only cell holds NaN entries alongside
finite ones (all three entries present, none null). -/
def nanPorkchopData : PorkchopData :=
  ⟨["2026-04-01T00:00:00"], ["2026-10-01T00:00:00"],
   [[some .nan]], [[some (.val 3)]], [[some (.val 183)]]⟩

/-- A one-cell porkchop grid whose only cell has a null `c3` entry. -/
def holePorkchopData : PorkchopData :=
  ⟨["2026-04-01T00:00:00"], ["2026-10-01T00:00:00"],
   [[none]], [[some (.val 3)]], [[some (.val 183)]]⟩

/-- A one-cell porkchop grid whose only cell has all three entries
non-null and finite. -/
def goodPorkchopData : PorkchopData :=
  ⟨["2026-04-01T00:00:00"], ["2026-10-01T00:00:00"],
   [[some (.val 12)]], [[some (.val 6)]], [[some (.val 200)]]⟩

/-- A two-by-two porkchop grid with pairwise distinct entries, for
checking the row/column orientation of cell selection. -/
def gridPorkchopData : PorkchopData :=
  ⟨["2026-04-01T00:00:00", "2026-05-01T00:00:00"],
   ["2026-10-01T00:00:00", "2026-11-01T00:00:00"],
   [[some (.val 11), some (.val 12)], [some (.val 21), some (.val 22)]],
   [[some (.val 511), some (.val 512)], [some (.val 521), some (.val 522)]],
   [[some (.val 911), some (.val 912)], [some (.val 921), some (.val 922)]]⟩

/-- A transfer object shaped like the specification's TransferRequest. -/
def sampleTransfer : JVal :=
  .obj [("departure", .str "earth"), ("arrival", .str "mars"),
        ("departure_date", .str "2026-04-01T00:00:00"),
        ("arrival_date", .str "2026-12-01T00:00:00")]

/-!
## Helper lemmas
-/

/-- The seconds-of-minute read and write cancel: the rendered instant is
the 2024 epoch plus the timestamp in milliseconds, whatever the epoch's
seconds field is. -/
theorem formatSimTime_ms_eq (t : ℤ) :
    formatSimTime_ms t = dateUTC 2024 0 1 + 1000 * t := by
  unfold formatSimTime_ms dateSetSeconds
  ring

/-!
## Claim C6 — launch request shape
-/

/-- Claim C6 counterexample: the launch request body for a
TransferRequest-shaped transfer is not the transfer itself — its only
top-level field is `transfer_data`, and the transfer's own fields are
absent from the top level. -/
theorem claim_C6_counterexample :
    jkeys (launchMissionRequest sampleTransfer).body = ["transfer_data"]
    ∧ jget (launchMissionRequest sampleTransfer).body "departure" = none
    ∧ jget (launchMissionRequest sampleTransfer).body "departure_date" = none
    ∧ jget (launchMissionRequest sampleTransfer).body "transfer_data" = some sampleTransfer :=
  ⟨rfl, rfl, rfl, rfl⟩

/-- Claim C6 (amended): for every mission launch the planner issues, the
request body sent to the launch endpoint is an object with the single
field `transfer_data`, whose value is the transfer object. -/
theorem claim_C6_theorem (transfer : JVal) :
    jkeys (launchMissionRequest transfer).body = ["transfer_data"]
    ∧ jget (launchMissionRequest transfer).body "transfer_data" = some transfer :=
  ⟨rfl, rfl⟩

/-!
## Claim C9 — sends outside OPEN are silently discarded
-/

/-- Claim C9: both the engine client's `sendCommand` and the generic
hook's `sendMessage` write the command to the socket exactly when the
socket exists and its ready state is `WebSocket.OPEN`; in every case they
queue nothing and raise no error. -/
theorem claim_C9_theorem (ws : Option ℕ) (command message : JVal) :
    ((sendCommand ws command).sent = if ws = some wsOPEN then [command] else [])
    ∧ (sendCommand ws command).queued = []
    ∧ (sendCommand ws command).error = none
    ∧ ((sendMessage ws message).sent = if ws = some wsOPEN then [message] else [])
    ∧ (sendMessage ws message).queued = []
    ∧ (sendMessage ws message).error = none := by
  rcases ws with _ | rs
  · simp [sendCommand, sendMessage]
  · by_cases hrs : rs = wsOPEN <;> simp [sendCommand, sendMessage, hrs]

/-!
## Claim C10 — every close schedules a reconnect
-/

/-- Claim C10: the `onclose` handler of the engine socket sets the
connected flag to false and appends a 3000 ms `connectWebSocket` timer,
so after any close event a reconnection attempt is pending. -/
theorem claim_C10_theorem (s : EngineConnState) :
    (engineSocketEvent s .onClose).isConnected = false
    ∧ (engineSocketEvent s .onClose).pendingTimers
        = s.pendingTimers ++ [(3000, "connectWebSocket")]
    ∧ (3000, "connectWebSocket") ∈ (engineSocketEvent s .onClose).pendingTimers
    ∧ (engineSocketEvent s .onClose).pendingTimers ≠ [] := by
  refine ⟨rfl, rfl, ?_, ?_⟩
  · simp [engineSocketEvent]
  · simp [engineSocketEvent]

/-!
## Claim C2 — command shapes
-/

/-- Claim C2 counterexample: the focus command for a body click carries
no `kind` discriminator and no `body` field — the discriminator is `type`
and the target field is `body_name`; the control commands likewise carry
no `kind` field. -/
theorem claim_C2_counterexample :
    jget (handleBodyClick "Earth").wsCommand "kind" = none
    ∧ jget (handleBodyClick "Earth").wsCommand "body" = none
    ∧ jget (handleBodyClick "Earth").wsCommand "type" = some (.str "focus")
    ∧ jget (handleBodyClick "Earth").wsCommand "body_name" = some (.str "Earth")
    ∧ jget (handlePlayPause false).wsCommand "kind" = none
    ∧ jget (handleSpeedChange (.val 10)).wsCommand "kind" = none :=
  ⟨rfl, rfl, rfl, rfl, rfl, rfl⟩

/-- Claim C2 (amended): every command the observer client sends over the
socket is one of the three shapes, but with the discriminator field
`type` and the focus target field `body_name`: a control command with
action `play` or `pause`, a control command with action `set_speed`
carrying the speed, or a focus command carrying the body name. -/
theorem claim_C2_theorem (isPlaying : Bool) (speed : JSNum) (bodyName : String) :
    (jget (handlePlayPause isPlaying).wsCommand "type" = some (.str "control")
      ∧ (jget (handlePlayPause isPlaying).wsCommand "action" = some (.str "play")
          ∨ jget (handlePlayPause isPlaying).wsCommand "action" = some (.str "pause")))
    ∧ (jget (handleSpeedChange speed).wsCommand "type" = some (.str "control")
      ∧ jget (handleSpeedChange speed).wsCommand "action" = some (.str "set_speed")
      ∧ jget (handleSpeedChange speed).wsCommand "speed" = some (.num speed))
    ∧ (jget (handleBodyClick bodyName).wsCommand "type" = some (.str "focus")
      ∧ jget (handleBodyClick bodyName).wsCommand "body_name" = some (.str bodyName)) := by
  refine ⟨⟨rfl, ?_⟩, ⟨rfl, rfl, rfl⟩, rfl, rfl⟩
  cases isPlaying
  · exact Or.inl rfl
  · exact Or.inr rfl

/-!
## Claim C1 — state snapshot field names as consumed by the client
-/

/-- Claim C1 counterexample: a snapshot and a mission entry carrying
their data under the specification's names (`sim_time`, `real_time`,
`current_position_au`) are not consumed by the client: the simulation
time and wall time the view displays are read from other fields and come
back undefined, and the spec-named active mission renders no spacecraft. -/
theorem claim_C1_counterexample :
    (engineView specNamedSnapshot).simInfoTimestamp = none
    ∧ (engineView specNamedSnapshot).simInfoRealTime = none
    ∧ jget specNamedSnapshot "sim_time" = some (.num (.val 42))
    ∧ jget specNamedSnapshot "real_time" = some (.str "2024-01-01T00:00:42Z")
    ∧ renderMissionSpacecraft specNamedMission = none
    ∧ jget specNamedMission "status" = some (.str "active")
    ∧ jget specNamedMission "current_position_au"
        = some (.arr [.num (.val 1), .num (.val 0), .num (.val 0)]) :=
  ⟨rfl, rfl, rfl, rfl, rfl, rfl, rfl⟩

/-- Claim C1 (amended): the observer client consumes state updates under
the field names `timestamp`, `real_timestamp`, `time_scale` and
`is_playing` (its initial state carries exactly these keys plus `bodies`
and `missions`, and the view reads exactly them), and a mission entry's
current position is consumed under the field name `current_position`. -/
theorem claim_C1_theorem (nowIso : String) (m : List (String × JVal)) (x y z : JVal)
    (hs : jget m "status" = some (.str "active"))
    (hp : jget m "current_position" = some (.arr [x, y, z])) :
    jkeys (initialSimulationState nowIso)
      = ["timestamp", "real_timestamp", "bodies", "missions", "time_scale", "is_playing"]
    ∧ (∀ st, (engineView st).simInfoTimestamp = jget st "timestamp"
        ∧ (engineView st).simInfoRealTime = jget st "real_timestamp"
        ∧ (engineView st).timeControlsTimeScale = jget st "time_scale"
        ∧ (engineView st).timeControlsIsPlaying = jget st "is_playing"
        ∧ (engineView st).solarSystemMissions = jget st "missions")
    ∧ renderMissionSpacecraft m = some (some x, some y, some z) := by
  refine ⟨rfl, fun st => ⟨rfl, rfl, rfl, rfl, rfl⟩, ?_⟩
  unfold renderMissionSpacecraft
  rw [hs, hp]
  rfl

/-- Claim C1 witness: the amended statement at the concrete
client-named active mission. -/
theorem claim_C1_witness :
    jkeys (initialSimulationState "2024-01-01T00:00:00.000Z")
      = ["timestamp", "real_timestamp", "bodies", "missions", "time_scale", "is_playing"]
    ∧ (∀ st, (engineView st).simInfoTimestamp = jget st "timestamp"
        ∧ (engineView st).simInfoRealTime = jget st "real_timestamp"
        ∧ (engineView st).timeControlsTimeScale = jget st "time_scale"
        ∧ (engineView st).timeControlsIsPlaying = jget st "is_playing"
        ∧ (engineView st).solarSystemMissions = jget st "missions")
    ∧ renderMissionSpacecraft clientNamedMission
        = some (some (.num (.val 1)), some (.num (.val 0)), some (.num (.val 0))) :=
  claim_C1_theorem "2024-01-01T00:00:00.000Z" clientNamedMission
    (.num (.val 1)) (.num (.val 0)) (.num (.val 0)) rfl rfl

/-- Helper: the cell-click guard returns early when any of the three grid
entries reads as null, leaving the selection unchanged and invoking no
callback. -/
theorem handleCellClick_null (data : PorkchopData) (sel : Option (ℕ × ℕ)) (i j : ℕ)
    (h : cellVal data.c3 i j = none ∨ cellVal data.delta_v i j = none
      ∨ cellVal data.time_of_flight i j = none) :
    handleCellClick data sel i j = (sel, none) := by
  unfold handleCellClick
  split
  · next a b c heq1 heq2 heq3 =>
      rcases h with h | h | h <;> simp_all
  · rfl

/-- Helper: when all three grid entries are present, the click selects
the cell and passes the row/column dates and the three entries along. -/
theorem handleCellClick_some (data : PorkchopData) (sel : Option (ℕ × ℕ)) (i j : ℕ)
    (a b c : JSNum)
    (hc : cellVal data.c3 i j = some a)
    (hd : cellVal data.delta_v i j = some b)
    (ht : cellVal data.time_of_flight i j = some c) :
    handleCellClick data sel i j
      = (some (i, j),
         some ⟨data.departure_dates.get? i, data.arrival_dates.get? j, a, b, c⟩) := by
  unfold handleCellClick
  split
  · next a' b' c' heq1 heq2 heq3 => simp_all
  · next hno => exact absurd hc (by simp_all [hno a b c])

/-!
## Claim C3 — failed cells are holes
-/

/-- Claim C3 counterexample: a cell whose `c3` entry is NaN (all three
entries present, none null) does invoke the selection callback and does
change the selection when clicked — NaN cells are not holes, only null
cells are. -/
theorem claim_C3_counterexample :
    cellVal nanPorkchopData.c3 0 0 = some JSNum.nan
    ∧ (handleCellClick nanPorkchopData none 0 0).1 = some (0, 0)
    ∧ (handleCellClick nanPorkchopData none 0 0).2
        = some ⟨some "2026-04-01T00:00:00", some "2026-10-01T00:00:00",
                JSNum.nan, .val 3, .val 183⟩ :=
  ⟨rfl, rfl, rfl⟩

/-- Claim C3 (amended): for every cell of a porkchop grid whose `c3`,
`delta_v` or `time_of_flight` entry reads as null (or undefined),
clicking never invokes the selection callback and the selection stays
unchanged; every cell whose three entries are all present — NaN entries
included — becomes the selected point when clicked, with the callback
invoked on its values. -/
theorem claim_C3_theorem (data : PorkchopData) (sel : Option (ℕ × ℕ)) (i j : ℕ) :
    (cellVal data.c3 i j = none ∨ cellVal data.delta_v i j = none
        ∨ cellVal data.time_of_flight i j = none →
      handleCellClick data sel i j = (sel, none))
    ∧ (∀ a b c : JSNum, cellVal data.c3 i j = some a →
        cellVal data.delta_v i j = some b →
        cellVal data.time_of_flight i j = some c →
        handleCellClick data sel i j
          = (some (i, j),
             some ⟨data.departure_dates.get? i, data.arrival_dates.get? j, a, b, c⟩)) :=
  ⟨handleCellClick_null data sel i j,
   fun a b c hc hd ht => handleCellClick_some data sel i j a b c hc hd ht⟩

/-- Claim C3 witness: the amended statement at a concrete grid with a
null hole and at a concrete grid with a fully populated cell. -/
theorem claim_C3_witness :
    handleCellClick holePorkchopData none 0 0 = (none, none)
    ∧ handleCellClick goodPorkchopData (some (0, 0)) 0 0
        = (some (0, 0),
           some ⟨some "2026-04-01T00:00:00", some "2026-10-01T00:00:00",
                 .val 12, .val 6, .val 200⟩) :=
  ⟨(claim_C3_theorem holePorkchopData none 0 0).1 (Or.inl rfl),
   (claim_C3_theorem goodPorkchopData (some (0, 0)) 0 0).2
     (.val 12) (.val 6) (.val 200) rfl rfl rfl⟩

/-!
## Claim C4 — grid indexing is (departure row, arrival column)
-/

/-- Claim C4: selecting a non-null cell (i, j) yields exactly the
transfer with departure date `departure_dates[i]`, arrival date
`arrival_dates[j]`, and the `c3[i][j]`, `delta_v[i][j]`,
`time_of_flight[i][j]` grid entries. -/
theorem claim_C4_theorem (data : PorkchopData) (sel : Option (ℕ × ℕ)) (i j : ℕ)
    (a b c : JSNum) (dep arr : String)
    (hc : cellVal data.c3 i j = some a)
    (hd : cellVal data.delta_v i j = some b)
    (ht : cellVal data.time_of_flight i j = some c)
    (hdep : data.departure_dates.get? i = some dep)
    (harr : data.arrival_dates.get? j = some arr) :
    handleCellClick data sel i j = (some (i, j), some ⟨some dep, some arr, a, b, c⟩) := by
  rw [handleCellClick_some data sel i j a b c hc hd ht, hdep, harr]

/-- Claim C4 witness: clicking cell (1, 0) of a concrete two-by-two grid
selects the second departure date, the first arrival date, and the
corresponding `[1][0]` entries of the three value grids. -/
theorem claim_C4_witness :
    handleCellClick gridPorkchopData none 1 0
      = (some (1, 0),
         some ⟨some "2026-05-01T00:00:00", some "2026-10-01T00:00:00",
               .val 21, .val 521, .val 921⟩) :=
  claim_C4_theorem gridPorkchopData none 1 0 (.val 21) (.val 521) (.val 921)
    "2026-05-01T00:00:00" "2026-10-01T00:00:00" rfl rfl rfl rfl rfl

/-!
## Claim C7 — speeds from the time controls are positive
-/

/-- Claim C7: the speed options of the time controls are exactly 1, 10,
100, 1000, 10000, 100000 and 1000000; choosing any option sends a
`set_speed` command whose speed is that option's value, which is
positive. -/
theorem claim_C7_theorem (k : ℕ) (opt : SpeedOption)
    (h : speedOptions.get? k = some opt) :
    speedOptions.map SpeedOption.value = [1, 10, 100, 1000, 10000, 100000, 1000000]
    ∧ 0 < opt.value
    ∧ timeControlsSelectSpeed k = some opt.value
    ∧ jget (handleSpeedChange (.val opt.value)).wsCommand "speed"
        = some (.num (.val opt.value)) := by
  refine ⟨rfl, ?_, ?_, rfl⟩
  · have hmem : opt ∈ speedOptions := List.get?_mem h
    fin_cases hmem <;> norm_num
  · unfold timeControlsSelectSpeed
    rw [h]
    rfl

/-- Claim C7 witness: the statement at the first option of the select. -/
theorem claim_C7_witness :
    speedOptions.map SpeedOption.value = [1, 10, 100, 1000, 10000, 100000, 1000000]
    ∧ 0 < (SpeedOption.mk 1 "1x").value
    ∧ timeControlsSelectSpeed 0 = some (SpeedOption.mk 1 "1x").value
    ∧ jget (handleSpeedChange (.val (SpeedOption.mk 1 "1x").value)).wsCommand "speed"
        = some (.num (.val (SpeedOption.mk 1 "1x").value)) :=
  claim_C7_theorem 0 ⟨1, "1x"⟩ rfl

/-!
## Claim C5 — planner request surfaces
-/

/-- Helper: appending `T00:00:00` to a calendar-date string yields an
ISO-8601 date-time string. -/
theorem isoDate_append_time (s : String) (h : isIsoDate s = true) :
    isIsoDateTime (s ++ "T00:00:00") = true := by
  unfold isIsoDate at h
  unfold isIsoDateTime
  rw [String.data_append]
  split at h
  · next y1 y2 y3 y4 m1 m2 d1 d2 heq =>
      rw [heq]
      simp_all
  · exact absurd h (by simp)

/-- Claim C5: every porkchop request the client sends has exactly the
fields departure, arrival, departure_start, departure_end, arrival_start,
arrival_end, each date field the picker's calendar date extended to an
ISO-8601 date-time string; every single-transfer request has exactly the
fields departure, arrival, departure_date, arrival_date. -/
theorem claim_C5_theorem (dep arr ds de aS aE : String) (point : SelectedPoint)
    (h1 : isIsoDate ds = true) (h2 : isIsoDate de = true)
    (h3 : isIsoDate aS = true) (h4 : isIsoDate aE = true) :
    jkeys (calculatePorkchopRequest dep arr ds de aS aE).body
      = ["departure", "arrival", "departure_start", "departure_end",
         "arrival_start", "arrival_end"]
    ∧ jget (calculatePorkchopRequest dep arr ds de aS aE).body "departure_start"
        = some (.str (ds ++ "T00:00:00"))
    ∧ jget (calculatePorkchopRequest dep arr ds de aS aE).body "departure_end"
        = some (.str (de ++ "T00:00:00"))
    ∧ jget (calculatePorkchopRequest dep arr ds de aS aE).body "arrival_start"
        = some (.str (aS ++ "T00:00:00"))
    ∧ jget (calculatePorkchopRequest dep arr ds de aS aE).body "arrival_end"
        = some (.str (aE ++ "T00:00:00"))
    ∧ isIsoDateTime (ds ++ "T00:00:00") = true
    ∧ isIsoDateTime (de ++ "T00:00:00") = true
    ∧ isIsoDateTime (aS ++ "T00:00:00") = true
    ∧ isIsoDateTime (aE ++ "T00:00:00") = true
    ∧ jkeys (calculateTransferRequest dep arr point).body
      = ["departure", "arrival", "departure_date", "arrival_date"] :=
  ⟨rfl, rfl, rfl, rfl, rfl,
   isoDate_append_time ds h1, isoDate_append_time de h2,
   isoDate_append_time aS h3, isoDate_append_time aE h4, rfl⟩

/-- Claim C5 witness: the statement at concrete picker dates and a
concrete selected point. -/
theorem claim_C5_witness :
    jkeys (calculatePorkchopRequest "earth" "mars"
        "2026-04-01" "2026-12-01" "2026-10-01" "2028-01-01").body
      = ["departure", "arrival", "departure_start", "departure_end",
         "arrival_start", "arrival_end"]
    ∧ jget (calculatePorkchopRequest "earth" "mars"
        "2026-04-01" "2026-12-01" "2026-10-01" "2028-01-01").body "departure_start"
        = some (.str ("2026-04-01" ++ "T00:00:00"))
    ∧ jget (calculatePorkchopRequest "earth" "mars"
        "2026-04-01" "2026-12-01" "2026-10-01" "2028-01-01").body "departure_end"
        = some (.str ("2026-12-01" ++ "T00:00:00"))
    ∧ jget (calculatePorkchopRequest "earth" "mars"
        "2026-04-01" "2026-12-01" "2026-10-01" "2028-01-01").body "arrival_start"
        = some (.str ("2026-10-01" ++ "T00:00:00"))
    ∧ jget (calculatePorkchopRequest "earth" "mars"
        "2026-04-01" "2026-12-01" "2026-10-01" "2028-01-01").body "arrival_end"
        = some (.str ("2028-01-01" ++ "T00:00:00"))
    ∧ isIsoDateTime ("2026-04-01" ++ "T00:00:00") = true
    ∧ isIsoDateTime ("2026-12-01" ++ "T00:00:00") = true
    ∧ isIsoDateTime ("2026-10-01" ++ "T00:00:00") = true
    ∧ isIsoDateTime ("2028-01-01" ++ "T00:00:00") = true
    ∧ jkeys (calculateTransferRequest "earth" "mars"
        ⟨some "2026-04-01T00:00:00", some "2026-10-01T00:00:00",
         .val 12, .val 6, .val 183⟩).body
      = ["departure", "arrival", "departure_date", "arrival_date"] :=
  claim_C5_theorem "earth" "mars" "2026-04-01" "2026-12-01" "2026-10-01" "2028-01-01"
    ⟨some "2026-04-01T00:00:00", some "2026-10-01T00:00:00", .val 12, .val 6, .val 183⟩
    rfl rfl rfl rfl

/-!
## Claim C8 — absolute dates from seconds since the 2024 epoch
-/

/-- Claim C8: for every timestamp t, the simulation-time display renders
the instant 2024-01-01T00:00:00 UTC plus t seconds; the rendered instant
is strictly monotonic in t, t = 0 maps to the epoch itself, and the
displayed string at t = 0 is the epoch's calendar date. -/
theorem claim_C8_theorem (t t' : ℤ) (h : t < t') :
    formatSimTime_ms t = dateUTC 2024 0 1 + 1000 * t
    ∧ formatSimTime_ms t < formatSimTime_ms t'
    ∧ formatSimTime_ms 0 = dateUTC 2024 0 1
    ∧ formatSimTime 0 = "2024-01-01 00:00:00" := by
  refine ⟨formatSimTime_ms_eq t, ?_, ?_, ?_⟩
  · rw [formatSimTime_ms_eq t, formatSimTime_ms_eq t']
    linarith
  · rw [formatSimTime_ms_eq 0]
    ring
  · rfl

/-- Claim C8 witness: the statement at t = 0 and t' = 1. -/
theorem claim_C8_witness :
    formatSimTime_ms 0 = dateUTC 2024 0 1 + 1000 * 0
    ∧ formatSimTime_ms 0 < formatSimTime_ms 1
    ∧ formatSimTime_ms 0 = dateUTC 2024 0 1
    ∧ formatSimTime 0 = "2024-01-01 00:00:00" :=
  claim_C8_theorem 0 1 (by norm_num)
